/-
Verification of the Asteroids game engine (asteroids.c) against its
natural-language specification.

The C source is shallowly embedded: floats become exact rationals (ℚ),
the pseudo-random generator becomes an explicit stream σ : ℕ → ℕ of
nonnegative values consumed at explicit indices, sprite handles become
naturals, and the intrusive linked lists of `object` records become
`List Object`.  Fields the C code leaves uninitialized for a given object
kind (e.g. `accel` and `life` of an asteroid) are modelled as 0; no claim
depends on them.  C argument evaluation order is unspecified, so the rand
stream is consumed in source text order; every property proved below is
independent of that order (ranges, counts, sizes, positions).
-/
import Mathlib

namespace Asteroids

/-! ### Constants from asteroids.c -/

def SCREEN_W : ℚ := 800

def SCREEN_H : ℚ := 600

def FRAME_DELAY_MS : ℕ := 10

def BULLET_DELAY_MS : ℕ := 500

def BULLET_LIFE_MS : ℕ := 1000

def INITIAL_ASTEROIDS : ℕ := 5

def SHIP_MAX_VEL : ℚ := 8

def SHIP_ACCEL : ℚ := 1 / 10

def SHIP_AVEL : ℤ := 6

def BULLET_SIZE : ℕ := 6

/-! ### Data model: the `point` and `object` structs -/

structure Point where
  x : ℚ
  y : ℚ
deriving Repr, DecidableEq

/-- The C `object` struct.  `handle` is the opaque sprite handle
(`xSpriteHandle`), `next` pointers are replaced by list structure. -/
structure Object where
  handle : ℕ
  pos : Point
  vel : Point
  accel : ℚ
  angle : ℤ
  a_vel : ℤ
  size : ℕ
  life : ℕ
deriving Repr, DecidableEq

/-- Truncation toward zero, the semantics of C's float→int conversion,
on an exact rational. -/
def cTrunc (q : ℚ) : ℤ := q.num / (q.den : ℤ)

/-! ### Toroidal wrap (updateTask, the three identical wrap blocks) -/

/-- One coordinate wrap from updateTask:
`if (p < 0.0) p += d; else if (p > d) p -= d;`. -/
def wrapCoord (d p : ℚ) : ℚ :=
  if p < 0 then p + d else if p > d then p - d else p

/-- One integration step `p += v` followed by the wrap adjustment. -/
def integrateWrap (d p v : ℚ) : ℚ := wrapCoord d (p + v)

/-- Position integration with wrap on both axes, with the screen bounds
used for the ship, every bullet and every asteroid in updateTask. -/
def integrateWrapPoint (p v : Point) : Point :=
  ⟨integrateWrap SCREEN_W p.x v.x, integrateWrap SCREEN_H p.y v.y⟩

/-! ### Ship thrust and speed clamp (updateTask lines 204-210) -/

/-- The ship velocity update of updateTask: thrust increment along the
heading followed by the clamp.  `sn` and `cs` stand for
`sin(angle*DEG_TO_RAD)` and `cos(angle*DEG_TO_RAD)`; the clamp property
holds for arbitrary rational values of these.  The clamp test compares
`vel.x*vel.x + vel.y*vel.y` (squared sum) against the scalar
`SHIP_MAX_VEL`, and rescales both components by `SHIP_MAX_VEL / sum`,
exactly as the source does. -/
def thrustStep (accel sn cs : ℚ) (v : Point) : Point :=
  let v1 : Point := ⟨v.x + accel * (-sn), v.y + accel * (-cs)⟩
  let s : ℚ := v1.x * v1.x + v1.y * v1.y
  if s > SHIP_MAX_VEL then
    ⟨v1.x * (SHIP_MAX_VEL / s), v1.y * (SHIP_MAX_VEL / s)⟩
  else v1

/-! ### Input sampling (inputTask) -/

/-- One pass of inputTask over the four buttons.  Returns
(`ship.a_vel`, `ship.accel`).  The C polls LEFT first, so left wins when
both turn buttons are held. -/
def inputStep (left right accelBtn : Bool) : ℤ × ℚ :=
  (if left then SHIP_AVEL else if right then -SHIP_AVEL else 0,
   if accelBtn then SHIP_ACCEL else 0)

/-! ### Bullets (createBullet, updateTask bullet pass, bulletTask) -/

/-- createBullet: position and velocity from the arguments,
`size = BULLET_SIZE`, `life = 0`.  Fields the C code does not set for a
bullet (accel, angle, a_vel) are modelled as 0. -/
def createBullet (h : ℕ) (x y velx vely : ℚ) : Object :=
  { handle := h, pos := ⟨x, y⟩, vel := ⟨velx, vely⟩, accel := 0,
    angle := 0, a_vel := 0, size := BULLET_SIZE, life := 0 }

/-- One bullet's treatment in one updateTask tick: age by
`FRAME_DELAY_MS`; if `life >= BULLET_LIFE_MS` the bullet is deleted
(`none`) without its position being advanced, otherwise its position is
integrated with toroidal wrap. -/
def stepBullet (b : Object) : Option Object :=
  let aged : Object := { b with life := b.life + FRAME_DELAY_MS }
  if BULLET_LIFE_MS ≤ aged.life then none
  else some { aged with pos := integrateWrapPoint aged.pos aged.vel }

/-- The full bullet pass of one updateTask tick over the bullet list. -/
def updateBullets (l : List Object) : List Object := l.filterMap stepBullet

/-- A bullet followed over `n` updateTask ticks; `none` once deleted. -/
def runBulletTicks : ℕ → Object → Option Object
  | 0, b => some b
  | n + 1, b =>
    match stepBullet b with
    | none => none
    | some b2 => runBulletTicks n b2

/-- The bullet-spawner loop (bulletTask): at wake time `t`, if the fire
button reads true a bullet is created (its creation time is recorded) and
the task sleeps `BULLET_DELAY_MS`; otherwise it sleeps `FRAME_DELAY_MS`.
`fuel` bounds the number of wakeups considered. -/
def bulletTimes (fire : ℕ → Bool) : ℕ → ℕ → List ℕ
  | 0, _ => []
  | fuel + 1, t =>
    if fire t then t :: bulletTimes fire fuel (t + BULLET_DELAY_MS)
    else bulletTimes fire fuel (t + FRAME_DELAY_MS)

/-! ### Asteroids (createAsteroid, spawnAsteroid, init) -/

/-- The value `(rand() % (int8_t)(m * 10)) / 5.0 - m` used for every
random velocity / angular-velocity component, with `m` the integer the
C code truncated the max-velocity macro to and `r` the rand() sample. -/
def childVel (m r : ℕ) : ℚ := ((r % (m * 10) : ℕ) : ℚ) / 5 - (m : ℚ)

/-- createAsteroid: builds the object from its arguments and prepends it
to the asteroid list (the C code links `next` to the global list head and
reassigns the global).  `accel` and `life` are not set by the C code for
asteroids and are modelled as 0.  The random sprite-image pick inside the
C function is not part of the object state. -/
def createAsteroid (h : ℕ) (x y velx vely : ℚ) (angle a_vel : ℤ)
    (size : ℕ) (asts : List Object) : List Object :=
  { handle := h, pos := ⟨x, y⟩, vel := ⟨velx, vely⟩, accel := 0,
    angle := angle, a_vel := a_vel, size := size, life := 0 } :: asts

/-- The `switch (size - 1)` table of spawnAsteroid, keyed by the new
(decremented) size, giving the integer-truncated pair
(max velocity, max angular velocity): 2→(3,6), 1→(4,9), default (2,3). -/
def astTables (newSize : ℕ) : ℕ × ℕ :=
  match newSize with
  | 2 => (3, 6)
  | 1 => (4, 9)
  | _ => (2, 3)

/-- One iteration of the spawn loop of spawnAsteroid: a child at the
parent position with random velocity, angle and angular velocity drawn
from the stream (5 rand() samples per child: velx, vely, angle, avel and
the image pick inside createAsteroid). -/
def spawnChildStep (σ : ℕ → ℕ) (k h : ℕ) (pos : Point)
    (velMax accMax newSize : ℕ) (asts : List Object) : List Object :=
  createAsteroid h pos.x pos.y
    (childVel velMax (σ k)) (childVel velMax (σ (k + 1)))
    ((σ (k + 2) % 360 : ℕ) : ℤ) (cTrunc (childVel accMax (σ (k + 3))))
    newSize asts

/-- The object built by one `spawnChildStep` (the head it prepends). -/
def childObj (σ : ℕ → ℕ) (k h : ℕ) (pos : Point)
    (velMax accMax newSize : ℕ) : Object :=
  { handle := h, pos := pos,
    vel := ⟨childVel velMax (σ k), childVel velMax (σ (k + 1))⟩,
    accel := 0, angle := ((σ (k + 2) % 360 : ℕ) : ℤ),
    a_vel := cTrunc (childVel accMax (σ (k + 3))), size := newSize,
    life := 0 }

/-- spawnAsteroid: if `size > 1`, look up the table for `size - 1` and
prepend three children; otherwise do nothing. -/
def spawnAsteroid (σ : ℕ → ℕ) (k h0 : ℕ) (pos : Point) (size : ℕ)
    (asts : List Object) : List Object :=
  if 1 < size then
    let t := astTables (size - 1)
    spawnChildStep σ (k + 10) (h0 + 2) pos t.1 t.2 (size - 1)
      (spawnChildStep σ (k + 5) (h0 + 1) pos t.1 t.2 (size - 1)
        (spawnChildStep σ k h0 pos t.1 t.2 (size - 1) asts))
  else asts

/-! ### Bullet-asteroid hit resolution (drawTask lines 333-355) -/

/-- The asteroid-scan loop of drawTask after a bullet hit: walk the list,
and at the FIRST asteroid whose handle equals the reported hit handle,
record its position and size, unlink it and stop (`break`).  Returns the
captured (position, size) if any, and the remaining list. -/
def removeFirstHit (hit : ℕ) : List Object → Option (Point × ℕ) × List Object
  | [] => (none, [])
  | a :: rest =>
    if a.handle = hit then (some (a.pos, a.size), rest)
    else
      let r := removeFirstHit hit rest
      (r.1, a :: r.2)

/-- The full bullet-hit handling of drawTask on the asteroid list: remove
the first asteroid owning the hit handle, then decompose it at its
captured position and size. -/
def handleBulletHit (σ : ℕ → ℕ) (k h0 hit : ℕ) (asts : List Object) :
    List Object :=
  match removeFirstHit hit asts with
  | (some ps, rest) => spawnAsteroid σ k h0 ps.1 ps.2 rest
  | (none, rest) => rest

/-! ### Session initialization and the end-of-pass check (init, drawTask) -/

/-- getRandStartPosVal:
`rand() % (dimOver2 - DEAD_ZONE_OVER_2) + (rand() % 2) * (dimOver2 + DEAD_ZONE_OVER_2)`. -/
def getRandStartPosVal (r1 r2 dimOver2 : ℕ) : ℕ :=
  r1 % (dimOver2 - 120) + (r2 % 2) * (dimOver2 + 120)

/-- One initial size-3 asteroid from the init loop (8 rand() samples:
two per start coordinate, velx, vely, angle, avel; the image pick is not
object state). -/
def mkInitAst (σ : ℕ → ℕ) (k h : ℕ) : Object :=
  { handle := h,
    pos := ⟨(getRandStartPosVal (σ k) (σ (k + 1)) 400 : ℕ),
            (getRandStartPosVal (σ (k + 2)) (σ (k + 3)) 300 : ℕ)⟩,
    vel := ⟨childVel 2 (σ (k + 4)), childVel 2 (σ (k + 5))⟩,
    accel := 0, angle := ((σ (k + 6) % 360 : ℕ) : ℤ),
    a_vel := cTrunc (childVel 3 (σ (k + 7))), size := 3, life := 0 }

/-- The init loop: `INITIAL_ASTEROIDS` size-3 asteroids prepended. -/
def initAsteroidList (σ : ℕ → ℕ) (h0 : ℕ) : ℕ → List Object
  | 0 => []
  | n + 1 => mkInitAst σ (8 * n) (h0 + n) :: initAsteroidList σ h0 n

/-- The ship state set by init: centered, at rest, heading 0. -/
def initShip (h : ℕ) : Object :=
  { handle := h, pos := ⟨400, 300⟩, vel := ⟨0, 0⟩, accel := 0,
    angle := 0, a_vel := 0, size := 0, life := 0 }

/-- The game state mutated by the tasks: the ship and the two lists. -/
structure GameState where
  ship : Object
  bullets : List Object
  asteroids : List Object
deriving Repr, DecidableEq

/-- A fresh session as produced by init(). -/
def initState (σ : ℕ → ℕ) (h0 sh : ℕ) : GameState :=
  { ship := initShip sh, bullets := [],
    asteroids := initAsteroidList σ h0 INITIAL_ASTEROIDS }

/-- The two terminal sprites of drawTask. -/
inductive TerminalSprite where
  | win : TerminalSprite
  | lose : TerminalSprite
deriving Repr, DecidableEq

/-- The test `uCollide(ship.handle, astGroup, ...) > 0`: the asteroid
group holds exactly the sprites of the live asteroids, so a reported
ship collision means some asteroid's handle collides with the ship. -/
def shipCollides (collide : ℕ → Bool) (asts : List Object) : Bool :=
  asts.any fun a => collide a.handle

/-- The end-of-pass check of drawTask lines 369-388:
`if (uCollide(...) > 0 || asteroids == NULL)` show "win.png" when the
list is empty and "lose.png" otherwise, then reset() + init() a fresh
session.  Returns the sprite shown (if any) and the next state. -/
def coordinatorEnd (collide : ℕ → Bool) (st : GameState) (σ : ℕ → ℕ)
    (h0 sh : ℕ) : Option TerminalSprite × GameState :=
  if shipCollides collide st.asteroids || st.asteroids.isEmpty then
    (some (if st.asteroids.isEmpty then TerminalSprite.win
           else TerminalSprite.lose),
     initState σ h0 sh)
  else (none, st)

/-- A sample size-3 asteroid at (400,300), used by concrete inputs. -/
def sampleAst (h : ℕ) : Object :=
  { handle := h, pos := ⟨400, 300⟩, vel := ⟨0, 0⟩, accel := 0,
    angle := 0, a_vel := 0, size := 3, life := 0 }

/-! ### C2: toroidal wrap bounds -/

/-- C2 counterexample: the wrap uses a strict `> dimension` test, so a
step landing exactly on the screen dimension is left there.  With
`p = 400` (inside `[0, 800)`) and `v = 400` (`|v| < 800`), integration
plus wrap yields exactly 800, which is not in `[0, 800)` as the claim
states. -/
theorem wrap_boundary_cex :
    (0 : ℚ) ≤ 400 ∧ (400 : ℚ) < 800 ∧ |(400 : ℚ)| < 800 ∧
    integrateWrap 800 400 400 = 800 ∧ ¬ integrateWrap 800 400 400 < 800 := by
  norm_num [integrateWrap, wrapCoord]

/-- C2 amended: for every dimension `d > 0`, position `p ∈ [0, d]` and
single-tick velocity `v` with `|v| < d`, one integration step followed by
the wrap adjustment yields a coordinate in the CLOSED interval `[0, d]`
(the boundary value `d` itself is attainable, see the counterexample);
since the hypothesis allows `p = d`, repeated application never escapes
`[0, d]`.  This is the wrap applied by updateTask to the ship, every
bullet and every asteroid with `d = 800` (x) and `d = 600` (y). -/
theorem wrap_closed_interval (d p v : ℚ) (hd : 0 < d) (hp0 : 0 ≤ p)
    (hpd : p ≤ d) (hv1 : -d < v) (hv2 : v < d) :
    0 ≤ integrateWrap d p v ∧ integrateWrap d p v ≤ d := by
  unfold integrateWrap wrapCoord
  split_ifs with h1 h2 <;> constructor <;> linarith

/-- Witness for `wrap_closed_interval` at `d = 800`, `p = 799`, `v = 5`. -/
theorem wrap_closed_interval_w :
    ((0 : ℚ) < 800 ∧ (0 : ℚ) ≤ 799 ∧ (799 : ℚ) ≤ 800 ∧
      -(800 : ℚ) < 5 ∧ (5 : ℚ) < 800) ∧
    (0 ≤ integrateWrap 800 799 5 ∧ integrateWrap 800 799 5 ≤ 800) :=
  ⟨by norm_num,
   wrap_closed_interval 800 799 5 (by norm_num) (by norm_num) (by norm_num)
     (by norm_num) (by norm_num)⟩

/-! ### C5: thrust step and speed clamp -/

/-- C5: in the Physics Integrator's thrust step (modelled by
`thrustStep`, whose body performs exactly the source's comparison of the
squared component sum against the scalar `SHIP_MAX_VEL` and the rescale
by `SHIP_MAX_VEL / sum`), the resulting velocity always satisfies
`x² + y² ≤ SHIP_MAX_VEL`, hence in particular the resulting speed never
exceeds the configured maximum magnitude
(`x² + y² ≤ SHIP_MAX_VEL²`). -/
theorem thrust_clamp_bound (accel sn cs : ℚ) (v : Point) :
    (thrustStep accel sn cs v).x * (thrustStep accel sn cs v).x +
        (thrustStep accel sn cs v).y * (thrustStep accel sn cs v).y ≤
      SHIP_MAX_VEL ∧
    (thrustStep accel sn cs v).x * (thrustStep accel sn cs v).x +
        (thrustStep accel sn cs v).y * (thrustStep accel sn cs v).y ≤
      SHIP_MAX_VEL * SHIP_MAX_VEL := by
  have main :
      (thrustStep accel sn cs v).x * (thrustStep accel sn cs v).x +
        (thrustStep accel sn cs v).y * (thrustStep accel sn cs v).y ≤ 8 := by
    simp only [thrustStep, SHIP_MAX_VEL]
    set a : ℚ := v.x + accel * (-sn) with ha
    set b : ℚ := v.y + accel * (-cs) with hb
    split_ifs with h
    · have hs : (0 : ℚ) < a * a + b * b := by linarith
      have h64 :
          a * (8 / (a * a + b * b)) * (a * (8 / (a * a + b * b))) +
            b * (8 / (a * a + b * b)) * (b * (8 / (a * a + b * b))) =
          64 / (a * a + b * b) := by
        field_simp
        ring
      simp only [h64]
      rw [div_le_iff hs]
      linarith
    · push_neg at h
      simpa using h
  exact ⟨by simpa [SHIP_MAX_VEL] using main,
         by have : (8 : ℚ) ≤ 64 := by norm_num
            simp only [SHIP_MAX_VEL] at main ⊢
            linarith⟩

/-! ### C8: input sampling -/

/-- C8: one pass of the Input Sampler.  The angular intent is
`+SHIP_AVEL` whenever turn-left is asserted (left takes precedence over
a simultaneous turn-right), `-SHIP_AVEL` when only turn-right is
asserted, and 0 when neither is; the thrust intent is `SHIP_ACCEL`
exactly when the thrust input is asserted and 0 otherwise. -/
theorem inputTask_intents (l r a : Bool) :
    ((l = true → (inputStep l r a).1 = SHIP_AVEL) ∧
     (l = false → r = true → (inputStep l r a).1 = -SHIP_AVEL) ∧
     (l = false → r = false → (inputStep l r a).1 = 0)) ∧
    ((a = true → (inputStep l r a).2 = SHIP_ACCEL) ∧
     (a = false → (inputStep l r a).2 = 0)) := by
  cases l <;> cases r <;> cases a <;> simp [inputStep]

/-- Witness for `inputTask_intents`: both turn buttons and thrust held,
left wins and thrust intent is `SHIP_ACCEL`. -/
theorem inputTask_intents_w :
    (inputStep true true true).1 = SHIP_AVEL ∧
    (inputStep true true true).2 = SHIP_ACCEL :=
  ⟨(inputTask_intents true true true).1.1 rfl,
   (inputTask_intents true true true).2.1 rfl⟩

/-! ### C6: bullet expiry timing -/

/-- A bullet that stays strictly below the time-to-live for `n` ticks
survives them, its age advancing by `FRAME_DELAY_MS` per tick. -/
theorem runBulletTicks_live (n : ℕ) :
    ∀ b : Object, b.life + 10 * n < 1000 →
      ∃ b2, runBulletTicks n b = some b2 ∧ b2.life = b.life + 10 * n := by
  induction n with
  | zero => intro b _; exact ⟨b, rfl, by ring⟩
  | succ n ih =>
    intro b hb
    have hstep : ¬ (1000 ≤ b.life + 10) := by omega
    have hrun :
        runBulletTicks (n + 1) b =
          runBulletTicks n
            { b with life := b.life + 10,
                     pos := integrateWrapPoint b.pos b.vel } := by
      simp [runBulletTicks, stepBullet, BULLET_LIFE_MS, FRAME_DELAY_MS, hstep]
    obtain ⟨b2, h2, hlife⟩ :=
      ih { b with life := b.life + 10,
                  pos := integrateWrapPoint b.pos b.vel } (by simp; omega)
    exact ⟨b2, by rw [hrun, h2], by simp at hlife; omega⟩

/-- A bullet whose age will have reached the time-to-live within `n ≥ 1`
ticks is gone after `n` ticks. -/
theorem runBulletTicks_expired (n : ℕ) :
    ∀ b : Object, 1 ≤ n → 1000 ≤ b.life + 10 * n →
      runBulletTicks n b = none := by
  induction n with
  | zero => intro b h; omega
  | succ n ih =>
    intro b _ hb
    by_cases hstep : 1000 ≤ b.life + 10
    · simp [runBulletTicks, stepBullet, BULLET_LIFE_MS, FRAME_DELAY_MS, hstep]
    · have hn : 1 ≤ n := by omega
      have hrun :
          runBulletTicks (n + 1) b =
            runBulletTicks n
              { b with life := b.life + 10,
                       pos := integrateWrapPoint b.pos b.vel } := by
        simp [runBulletTicks, stepBullet, BULLET_LIFE_MS, FRAME_DELAY_MS, hstep]
      rw [hrun]
      exact ih _ hn (by simp; omega)

/-- C6: a bullet is created by createBullet with age 0; each Integrator
tick adds `FRAME_DELAY_MS = 10` to its age, so after `n < 100` ticks it
is still alive with age `10 * n` (in particular it survives tick 99, one
tick below the threshold, with age 990 < 1000), and it is removed on
exactly tick 100, the tick on which its age first reaches
`BULLET_LIFE_MS = 1000`. -/
theorem bullet_expiry_tick (h : ℕ) (x y vx vy : ℚ) (n : ℕ) (hn : n < 100) :
    (∃ b2, runBulletTicks n (createBullet h x y vx vy) = some b2 ∧
      b2.life = 10 * n) ∧
    runBulletTicks 100 (createBullet h x y vx vy) = none := by
  constructor
  · obtain ⟨b2, h2, hlife⟩ :=
      runBulletTicks_live n (createBullet h x y vx vy)
        (by simp [createBullet]; omega)
    exact ⟨b2, h2, by simpa [createBullet] using hlife⟩
  · exact runBulletTicks_expired 100 (createBullet h x y vx vy)
      (by norm_num) (by simp [createBullet])

/-- Witness for `bullet_expiry_tick` at `n = 99` (one tick below the
threshold). -/
theorem bullet_expiry_tick_w :
    99 < 100 ∧
    ((∃ b2, runBulletTicks 99 (createBullet 0 0 0 0 0) = some b2 ∧
        b2.life = 10 * 99) ∧
      runBulletTicks 100 (createBullet 0 0 0 0 0) = none) :=
  ⟨by norm_num, bullet_expiry_tick 0 0 0 0 0 99 (by norm_num)⟩

/-! ### C10: expiring-bullet removal is local -/

/-- C10: on the tick on which a bullet's age reaches the time-to-live,
`stepBullet` yields `none` — the bullet is deleted on the aging branch,
before and instead of the position-integration branch, so its position is
never advanced on that tick — and the bullet pass over any list
containing it equals the pass over the list without it: the removal
leaves every other bullet's resulting position, velocity and age exactly
as they would have been, unchanged by the removal. -/
theorem bullet_removal_local (b : Object) (l1 l2 : List Object)
    (hb : BULLET_LIFE_MS ≤ b.life + FRAME_DELAY_MS) :
    stepBullet b = none ∧
    updateBullets (l1 ++ b :: l2) = updateBullets l1 ++ updateBullets l2 := by
  have h1 : stepBullet b = none := by
    simp [stepBullet, FRAME_DELAY_MS, BULLET_LIFE_MS] at hb ⊢
    omega
  refine ⟨h1, ?_⟩
  simp [updateBullets, List.filterMap_append, List.filterMap_cons, h1]

/-- Witness for `bullet_removal_local`: a bullet of age 990 among two
fresh ones. -/
theorem bullet_removal_local_w :
    BULLET_LIFE_MS ≤ (createBullet 1 0 0 0 0).life + 990 + FRAME_DELAY_MS ∧
    (stepBullet { createBullet 1 0 0 0 0 with life := 990 } = none ∧
      updateBullets ([createBullet 2 0 0 0 0] ++
          { createBullet 1 0 0 0 0 with life := 990 } ::
            [createBullet 3 0 0 0 0]) =
        updateBullets [createBullet 2 0 0 0 0] ++
          updateBullets [createBullet 3 0 0 0 0]) :=
  ⟨by decide,
   bullet_removal_local { createBullet 1 0 0 0 0 with life := 990 }
     [createBullet 2 0 0 0 0] [createBullet 3 0 0 0 0] (by decide)⟩

/-! ### C9: bullet-asteroid hit removes exactly the first match -/

/-- C9: the asteroid-scan of drawTask after a bullet hit removes exactly
one asteroid — the first in list order whose sprite handle equals the
reported hit handle — and stops there (`break`): the tail after the match
is not scanned, so asteroids after the match (even ones with the same
handle) and all asteroids before it remain in the list unchanged. -/
theorem bullet_hit_removes_first (hit : ℕ) (pre post : List Object)
    (a : Object) (ha : a.handle = hit) (hpre : ∀ b ∈ pre, b.handle ≠ hit) :
    removeFirstHit hit (pre ++ a :: post) =
      (some (a.pos, a.size), pre ++ post) := by
  induction pre with
  | nil => simp [removeFirstHit, ha]
  | cons c cs ih =>
    have hc : c.handle ≠ hit := hpre c (by simp)
    have htail := ih fun b hb => hpre b (by simp [hb])
    simp [removeFirstHit, hc, htail]

/-- Witness for `bullet_hit_removes_first`: handle 5 hit in a
three-asteroid list. -/
theorem bullet_hit_removes_first_w :
    ((sampleAst 5).handle = 5 ∧ ∀ b ∈ [sampleAst 1], b.handle ≠ 5) ∧
    removeFirstHit 5 ([sampleAst 1] ++ sampleAst 5 :: [sampleAst 2]) =
      (some ((sampleAst 5).pos, (sampleAst 5).size),
        [sampleAst 1] ++ [sampleAst 2]) :=
  ⟨⟨rfl, by decide⟩,
   bullet_hit_removes_first 5 [sampleAst 1] [sampleAst 2] (sampleAst 5)
     rfl (by decide)⟩

/-! ### C1: decomposition conservation -/

/-- Unfolding lemma: `spawnChildStep` prepends exactly the `childObj`
record. -/
theorem spawnChildStep_eq (σ : ℕ → ℕ) (k h : ℕ) (pos : Point)
    (velMax accMax newSize : ℕ) (asts : List Object) :
    spawnChildStep σ k h pos velMax accMax newSize asts =
      childObj σ k h pos velMax accMax newSize :: asts := rfl

/-- C1: for a destroyed asteroid of size `s ∈ {1,2,3}`, spawnAsteroid
produces no new asteroids when `s = 1`, and exactly 3 new asteroids when
`s ∈ {2,3}`, each of size `s - 1` and each at the destroyed asteroid's
position; every created asteroid has size ≥ 1, so no size-0 asteroid is
ever created. -/
theorem spawnAsteroid_decomposition (σ : ℕ → ℕ) (k h0 : ℕ) (pos : Point)
    (s : ℕ) (asts : List Object) (hs : s = 1 ∨ s = 2 ∨ s = 3) :
    (s = 1 → spawnAsteroid σ k h0 pos s asts = asts) ∧
    (s = 2 ∨ s = 3 →
      ∃ c0 c1 c2 : Object,
        spawnAsteroid σ k h0 pos s asts = c2 :: c1 :: c0 :: asts ∧
        ∀ c ∈ [c0, c1, c2], c.size = s - 1 ∧ c.pos = pos ∧ 1 ≤ c.size) := by
  constructor
  · intro h1
    subst h1
    simp [spawnAsteroid]
  · intro h23
    rcases h23 with h | h <;> subst h
    · refine ⟨childObj σ k h0 pos 4 9 1,
        childObj σ (k + 5) (h0 + 1) pos 4 9 1,
        childObj σ (k + 10) (h0 + 2) pos 4 9 1, ?_, ?_⟩
      · simp [spawnAsteroid, astTables, spawnChildStep_eq]
      · intro c hc
        simp only [List.mem_cons, List.not_mem_nil, or_false] at hc
        rcases hc with rfl | rfl | rfl <;> simp [childObj]
    · refine ⟨childObj σ k h0 pos 3 6 2,
        childObj σ (k + 5) (h0 + 1) pos 3 6 2,
        childObj σ (k + 10) (h0 + 2) pos 3 6 2, ?_, ?_⟩
      · simp [spawnAsteroid, astTables, spawnChildStep_eq]
      · intro c hc
        simp only [List.mem_cons, List.not_mem_nil, or_false] at hc
        rcases hc with rfl | rfl | rfl <;> simp [childObj]

/-- Witness for `spawnAsteroid_decomposition` at `s = 2` with the zero
random stream and an empty prior list. -/
theorem spawnAsteroid_decomposition_w :
    ((2 : ℕ) = 1 ∨ (2 : ℕ) = 2 ∨ (2 : ℕ) = 3) ∧
    (((2 : ℕ) = 1 →
        spawnAsteroid (fun _ => 0) 0 0 ⟨0, 0⟩ 2 [] = []) ∧
      ((2 : ℕ) = 2 ∨ (2 : ℕ) = 3 →
        ∃ c0 c1 c2 : Object,
          spawnAsteroid (fun _ => 0) 0 0 ⟨0, 0⟩ 2 [] = [c2, c1, c0] ∧
          ∀ c ∈ [c0, c1, c2],
            c.size = 2 - 1 ∧ c.pos = ⟨0, 0⟩ ∧ 1 ≤ c.size)) :=
  ⟨Or.inr (Or.inl rfl),
   spawnAsteroid_decomposition (fun _ => 0) 0 0 ⟨0, 0⟩ 2 []
     (Or.inr (Or.inl rfl))⟩

/-! ### C3: the concrete size-3 destruction scenario -/

/-- Range of the random velocity component for the table value 3
(children of a size-3 asteroid): `(r % 30)/5 - 3 ∈ [-3, 14/5]`. -/
theorem childVel3_bounds (r : ℕ) :
    -3 ≤ childVel 3 r ∧ childVel 3 r ≤ 14 / 5 := by
  unfold childVel
  have h0 : (0 : ℚ) ≤ ((r % (3 * 10) : ℕ) : ℚ) := Nat.cast_nonneg _
  have h29 : ((r % (3 * 10) : ℕ) : ℚ) ≤ 29 := by
    have h : r % (3 * 10) ≤ 29 := by omega
    exact_mod_cast h
  push_cast
  constructor <;> linarith

/-- C3 counterexample: with the all-zero random stream, destroying the
size-3 asteroid at (400,300) yields three children whose x velocity
component is `(0 % 30)/5 - 3 = -3`, which lies outside the claimed
interval `[-2, 2]` (the spawn table uses max velocity 3.0 for the new
size 2, not 2.0). -/
theorem spawn_velocity_cex :
    ((handleBulletHit (fun _ => 0) 0 0 7 [sampleAst 7]).map
        fun a => a.vel.x) = [-3, -3, -3] ∧
    ¬ (-(2 : ℚ) ≤ -3 ∧ (-3 : ℚ) ≤ 2) := by
  constructor
  · norm_num [handleBulletHit, removeFirstHit, sampleAst, spawnAsteroid,
      astTables, spawnChildStep, createAsteroid, childVel]
  · norm_num

/-- C3 amended: destroying a size-3 asteroid at (400,300) (hit handle
matching its sprite handle) leaves, for every pseudo-random stream,
exactly 3 asteroids, each of size 2, each at (400,300), and each with
both velocity components in `[-3, 14/5]` (i.e. `[-3.0, 2.8]`, from
`(rand() % 30)/5.0 - 3.0`), not in `[-2, 2]` as the claim states. -/
theorem bullet_hit_scenario (σ : ℕ → ℕ) (k h0 hA : ℕ) :
    (handleBulletHit σ k h0 hA [sampleAst hA]).length = 3 ∧
    ∀ a ∈ handleBulletHit σ k h0 hA [sampleAst hA],
      a.size = 2 ∧ a.pos = ⟨400, 300⟩ ∧
      (-3 ≤ a.vel.x ∧ a.vel.x ≤ 14 / 5) ∧
      (-3 ≤ a.vel.y ∧ a.vel.y ≤ 14 / 5) := by
  have hres :
      handleBulletHit σ k h0 hA [sampleAst hA] =
        [childObj σ (k + 10) (h0 + 2) ⟨400, 300⟩ 3 6 2,
         childObj σ (k + 5) (h0 + 1) ⟨400, 300⟩ 3 6 2,
         childObj σ k h0 ⟨400, 300⟩ 3 6 2] := by
    simp [handleBulletHit, removeFirstHit, sampleAst, spawnAsteroid,
      astTables, spawnChildStep_eq]
  rw [hres]
  refine ⟨rfl, ?_⟩
  intro a ha
  simp only [List.mem_cons, List.not_mem_nil, or_false] at ha
  rcases ha with rfl | rfl | rfl <;>
    exact ⟨rfl, rfl, childVel3_bounds _, childVel3_bounds _⟩

/-! ### C4: ship collision loses the session -/

/-- The init loop creates exactly `n` asteroids. -/
theorem initAsteroidList_length (σ : ℕ → ℕ) (h0 : ℕ) :
    ∀ n, (initAsteroidList σ h0 n).length = n := by
  intro n
  induction n with
  | zero => rfl
  | succ n ih => simp [initAsteroidList, ih]

/-- C4: on any Coordinator pass on which a ship-asteroid collision is
reported, the end-of-pass check shows the "lose" terminal sprite —
regardless of how many asteroids remain, since a reported collision with
the asteroid group implies the asteroid list is nonempty — and the next
state is a fresh session: no bullets, `INITIAL_ASTEROIDS` asteroids, and
the ship recentered. -/
theorem ship_collision_lose (collide : ℕ → Bool) (st : GameState)
    (σ : ℕ → ℕ) (h0 sh : ℕ)
    (hc : shipCollides collide st.asteroids = true) :
    coordinatorEnd collide st σ h0 sh =
      (some TerminalSprite.lose, initState σ h0 sh) ∧
    (initState σ h0 sh).bullets = [] ∧
    (initState σ h0 sh).asteroids.length = INITIAL_ASTEROIDS ∧
    (initState σ h0 sh).ship.pos = ⟨400, 300⟩ := by
  have hne : st.asteroids.isEmpty = false := by
    rcases List.any_eq_true.mp hc with ⟨x, hx, _⟩
    cases h : st.asteroids with
    | nil => rw [h] at hx; simp at hx
    | cons c cs => simp
  refine ⟨?_, rfl, initAsteroidList_length σ h0 INITIAL_ASTEROIDS, rfl⟩
  simp [coordinatorEnd, hc, hne]

/-- Witness for `ship_collision_lose`: one asteroid, with a collision
query that reports its handle. -/
theorem ship_collision_lose_w :
    shipCollides (fun _ => true)
        (GameState.mk (initShip 9) [] [sampleAst 7]).asteroids = true ∧
    (coordinatorEnd (fun _ => true)
        (GameState.mk (initShip 9) [] [sampleAst 7]) (fun _ => 0) 0 9 =
      (some TerminalSprite.lose, initState (fun _ => 0) 0 9) ∧
    (initState (fun _ => 0) 0 9).bullets = [] ∧
    (initState (fun _ => 0) 0 9).asteroids.length = INITIAL_ASTEROIDS ∧
    (initState (fun _ => 0) 0 9).ship.pos = ⟨400, 300⟩) :=
  ⟨rfl,
   ship_collision_lose (fun _ => true)
     (GameState.mk (initShip 9) [] [sampleAst 7]) (fun _ => 0) 0 9 rfl⟩

/-! ### C7: fire-rate ceiling -/

/-- Every creation time produced from wake time `t` is at least `t`. -/
theorem bulletTimes_ge (fire : ℕ → Bool) :
    ∀ fuel t : ℕ, ∀ e ∈ bulletTimes fire fuel t, t ≤ e := by
  intro fuel
  induction fuel with
  | zero =>
    intro t e he
    simp [bulletTimes] at he
  | succ n ih =>
    intro t e he
    by_cases h : fire t
    · rw [bulletTimes, if_pos h] at he
      rcases List.mem_cons.mp he with rfl | he2
      · exact le_refl e
      · exact le_trans (Nat.le_add_right _ _) (ih _ e he2)
    · rw [bulletTimes, if_neg h] at he
      exact le_trans (Nat.le_add_right _ _) (ih _ e he)

/-- After each bullet creation, at least one full cooldown interval
elapses before the next creation. -/
theorem bulletTimes_spacing (fire : ℕ → Bool) :
    ∀ fuel t : ℕ,
      List.Chain' (fun a b => a + BULLET_DELAY_MS ≤ b)
        (bulletTimes fire fuel t) := by
  intro fuel
  induction fuel with
  | zero => intro t; simp [bulletTimes]
  | succ n ih =>
    intro t
    by_cases h : fire t
    · rw [bulletTimes, if_pos h]
      refine List.chain'_cons'.mpr ⟨?_, ih (t + BULLET_DELAY_MS)⟩
      intro y hy
      exact bulletTimes_ge fire n (t + BULLET_DELAY_MS) y
        (List.mem_of_mem_head? hy)
    · rw [bulletTimes, if_neg h]
      exact ih (t + FRAME_DELAY_MS)

/-- With fire held throughout `[0, T]`, at most `(T - t)/cooldown + 1`
creations from wake time `t` fall within the window. -/
theorem bulletTimes_count (fire : ℕ → Bool) (T : ℕ)
    (hf : ∀ u, u ≤ T → fire u = true) :
    ∀ fuel t : ℕ,
      ((bulletTimes fire fuel t).filter fun e => e ≤ T).length ≤
        (T - t) / BULLET_DELAY_MS + 1 := by
  intro fuel
  induction fuel with
  | zero => intro t; simp [bulletTimes]
  | succ n ih =>
    intro t
    by_cases ht : t ≤ T
    · rw [bulletTimes, if_pos (hf t ht)]
      by_cases hnext : t + BULLET_DELAY_MS ≤ T
      · have hn := ih (t + BULLET_DELAY_MS)
        simp only [List.filter_cons, decide_eq_true_eq, ht, if_pos,
          List.length_cons]
        simp only [BULLET_DELAY_MS] at hn hnext ⊢
        omega
      · have hrest :
            ((bulletTimes fire n (t + BULLET_DELAY_MS)).filter
              fun e => e ≤ T) = [] := by
          rw [List.filter_eq_nil]
          intro e he
          have := bulletTimes_ge fire n (t + BULLET_DELAY_MS) e he
          simp only [decide_eq_true_eq]
          omega
        simp only [List.filter_cons, decide_eq_true_eq, ht, if_pos,
          List.length_cons, hrest]
        simp
    · have hall :
          ((bulletTimes fire (n + 1) t).filter fun e => e ≤ T) = [] := by
        rw [List.filter_eq_nil]
        intro e he
        have := bulletTimes_ge fire (n + 1) t e he
        simp only [decide_eq_true_eq]
        omega
      rw [hall]
      simp

/-- C7: if the fire input reads asserted at every wake time in `[0, T]`,
the Bullet Spawner creates at most `T / BULLET_DELAY_MS + 1` bullets with
creation time in `[0, T]` (cooldown 500 ms), and consecutive creations
are always at least one full cooldown apart. -/
theorem fire_rate_ceiling (fire : ℕ → Bool) (T fuel : ℕ)
    (hf : ∀ u, u ≤ T → fire u = true) :
    ((bulletTimes fire fuel 0).filter fun e => e ≤ T).length ≤
      T / BULLET_DELAY_MS + 1 ∧
    List.Chain' (fun a b => a + BULLET_DELAY_MS ≤ b)
      (bulletTimes fire fuel 0) := by
  constructor
  · simpa using bulletTimes_count fire T hf fuel 0
  · exact bulletTimes_spacing fire fuel 0

/-- Witness for `fire_rate_ceiling`: fire held for 1200 ms, five
wakeups. -/
theorem fire_rate_ceiling_w :
    (∀ u, u ≤ 1200 → (fun _ : ℕ => true) u = true) ∧
    (((bulletTimes (fun _ => true) 5 0).filter fun e => e ≤ 1200).length ≤
      1200 / BULLET_DELAY_MS + 1 ∧
    List.Chain' (fun a b => a + BULLET_DELAY_MS ≤ b)
      (bulletTimes (fun _ => true) 5 0)) :=
  ⟨fun _ _ => rfl, fire_rate_ceiling (fun _ => true) 1200 5 fun _ _ => rfl⟩

end Asteroids
